import Mathlib

/-!
Shallow embedding of the deepfake-alert scoring code:
`src/utils/analysisUtils.ts` (generateAnalysisResults) and
`src/utils/mlDetection.ts` (analyzeImageWithML).

Numbers are modelled as rationals; `Math.sin` is an abstract parameter
`sin : ℚ → ℚ` (bounded by [-1,1] where a claim needs it); the behaviour of
the external classifier call is an explicit `Except` parameter; the wall
clock (`new Date()`) is an explicit `now : String` parameter.
-/

/-- Helper for `strIncludes`: does the first list start with the second? -/
def startsWithL : List Char → List Char → Bool
  | _, [] => true
  | [], _ :: _ => false
  | a :: as, b :: bs => (a = b) && startsWithL as bs

/-- Helper for `strIncludes`: does `pat` occur contiguously in the list? -/
def includesL (pat : List Char) : List Char → Bool
  | [] => startsWithL [] pat
  | c :: cs => startsWithL (c :: cs) pat || includesL pat cs

/-- JavaScript `s.includes(pat)`. -/
def strIncludes (s pat : String) : Bool :=
  includesL pat.toList s.toList

/-- JavaScript `Math.round`: round half toward positive infinity. -/
def jsRound (q : ℚ) : ℤ := (q + 1 / 2).floor

/-- JavaScript `x || y` on numbers: `y` when `x` is falsy (zero), else `x`. -/
def jsOr (x y : ℚ) : ℚ := if x = 0 then y else x

/-- `MLFeatures` from mlDetection.ts. -/
structure MLFeatures where
  artificialPatterns : ℚ
  naturalFeatures : ℚ
  textureConsistency : ℚ
  lighting : ℚ
deriving DecidableEq

/-- `MLAnalysisResult` from mlDetection.ts. -/
structure MLAnalysisResult where
  isDeepfake : Bool
  confidence : ℚ
  features : MLFeatures
deriving DecidableEq

/-!  ## Classifier Adapter: mlDetection.ts, `analyzeImageWithML`  -/

/-- The `imageData: string | Blob` argument of `analyzeImageWithML`.  A blob
carries the `name` property of a `File` when present (`none` models a plain
`Blob` with no name). -/
inductive MLInput where
  | str (data : String)
  | blob (name : Option String)
deriving DecidableEq

/-- The webcam check repeated in both branches of `analyzeImageWithML`:
`imageData instanceof Blob && (imageData as File).name &&
(name.includes("webcam-capture") || name.includes("webcam"))`.
A missing or empty `name` is falsy. -/
def mlIsWebcam : MLInput → Bool
  | MLInput.str _ => false
  | MLInput.blob none => false
  | MLInput.blob (some n) =>
      (n != "") && (strIncludes n "webcam-capture" || strIncludes n "webcam")

/-- `result && result[0] && result[0].score ? result[0].score * 100 : 0`:
the classifier outcome is modelled as the list of top-label scores (in 0–1);
a zero head score is falsy and yields 0. -/
def confidenceScoreOf : List ℚ → ℚ
  | [] => 0
  | s :: _ => if s = 0 then 0 else s * 100

/-- `analyzeImageWithML` from mlDetection.ts.  `detectorOutcome` abstracts
everything inside the `try`: `Except.error` covers a failed lazy
initialization (`initializeDetector` returning null raises
`Model not initialized`) as well as a throwing inference call; `Except.ok`
carries the classification result array's scores.  The adapter is a total
function: no error escapes it. -/
def analyzeImageWithML (imageData : MLInput)
    (detectorOutcome : Except Unit (List ℚ)) : MLAnalysisResult :=
  match detectorOutcome with
  | Except.ok result =>
      let confidenceScore := confidenceScoreOf result
      let isWebcam := mlIsWebcam imageData
      let isDeepfake := if isWebcam then false else decide (confidenceScore > 60)
      { isDeepfake := isDeepfake
        confidence := confidenceScore
        features :=
          { artificialPatterns := if isDeepfake then confidenceScore else 20
            naturalFeatures := if isDeepfake then 20 else confidenceScore
            textureConsistency := if isDeepfake then 30 else 85
            lighting := if isDeepfake then 25 else 90 } }
  | Except.error _ =>
      let isWebcam := mlIsWebcam imageData
      { isDeepfake := if isWebcam then false else true
        confidence := if isWebcam then 95 else 65
        features :=
          { artificialPatterns := if isWebcam then 15 else 75
            naturalFeatures := if isWebcam then 90 else 30
            textureConsistency := if isWebcam then 85 else 35
            lighting := if isWebcam then 90 else 40 } }

/-!  ## Score Generator: analysisUtils.ts, `generateAnalysisResults`  -/

/-- `VideoMetrics` from analysisUtils.ts. -/
structure VideoMetrics where
  frameConsistency : ℚ
  facialAnomaly : ℚ
  audioVideoSync : ℚ
  temporalCoherence : ℚ
  neuralInconsistency : ℚ
deriving DecidableEq

/-- `AudioMetrics` from analysisUtils.ts. -/
structure AudioMetrics where
  voicePrintAuthenticity : ℚ
  backgroundNoiseAnalysis : ℚ
  frequencyAnomalies : ℚ
  prosodyConsistency : ℚ
  spectrogramPatterns : ℚ
deriving DecidableEq

/-- `ImageMetrics` from analysisUtils.ts. -/
structure ImageMetrics where
  metadataConsistency : ℚ
  pixelAnomalies : ℚ
  lightingConsistency : ℚ
  textureAnalysis : ℚ
  neuralInconsistency : ℚ
deriving DecidableEq

/-- `SpecificMetrics = VideoMetrics | AudioMetrics | ImageMetrics`, as a
tagged union (the TS union is discriminated by the `type` string at every
use site). -/
inductive SpecificMetrics where
  | video (m : VideoMetrics)
  | audio (m : AudioMetrics)
  | image (m : ImageMetrics)
deriving DecidableEq

/-- `baseMetrics` object of the result. -/
structure BaseMetrics where
  authenticity : ℚ
  manipulationProbability : ℚ
  confidence : ℚ
deriving DecidableEq

/-- `AnalysisResult` from analysisUtils.ts. -/
structure AnalysisResult where
  overallResult : String
  isDeepfake : Bool
  baseMetrics : BaseMetrics
  specificMetrics : SpecificMetrics
  mediaType : String
  fileName : String
  analysisDate : String
  datasetReference : String
  confidenceInterval : String
  analysisVersion : String
  detailedExplanation : String
  downloadable : Bool
deriving DecidableEq

/-- The zeroed default `mlResults` initialised at the top of
`generateAnalysisResults`. -/
def mlDefault : MLAnalysisResult :=
  { isDeepfake := false
    confidence := 0
    features :=
      { artificialPatterns := 0
        naturalFeatures := 0
        textureConsistency := 0
        lighting := 0 } }

/-- The fixed tuple the `forceAuthentic` branch assigns to `mlResults`. -/
def mlForcedAuthentic : MLAnalysisResult :=
  { isDeepfake := false
    confidence := 90
    features :=
      { artificialPatterns := 12
        naturalFeatures := 92
        textureConsistency := 95
        lighting := 90 } }

/-- The guard of the classifier call:
`fileData && (type === 'image' || type === 'video') && !forceAuthentic`. -/
def classifierAttempted (type : String) (fileSize : Option ℕ)
    (forceAuthentic : Bool) : Bool :=
  fileSize.isSome && (type == "image" || type == "video") && !forceAuthentic

/-- `mlResults` after the guarded try/catch around `analyzeImageWithML`:
when the classifier is not attempted, or its call throws, the zeroed
defaults are kept. -/
def resolveML (type : String) (fileSize : Option ℕ) (forceAuthentic : Bool)
    (outcome : Except Unit MLAnalysisResult) : MLAnalysisResult :=
  if classifierAttempted type fileSize forceAuthentic then
    match outcome with
    | Except.ok r => r
    | Except.error _ => mlDefault
  else mlDefault

/-- The `if (forceAuthentic) mlResults = {...}` override (lines 90–101):
only the flag triggers it, not the file name. -/
def mlOverride (forceAuthentic : Bool) (ml : MLAnalysisResult) : MLAnalysisResult :=
  if forceAuthentic then mlForcedAuthentic else ml

/-- `fileName.split('').reduce((acc, char) => acc + char.charCodeAt(0), 0)`. -/
def charSum (s : String) : ℕ :=
  (s.toList.map Char.toNat).sum

/-- `fileData ? (fileData.size % 1000) / 1000 : 0`. -/
def fileSizeFactor : Option ℕ → ℚ
  | some size => ((size % 1000 : ℕ) : ℚ) / 1000
  | none => 0

/-- `seed = (hash / 1000) + fileSizeFactor`. -/
def seedOf (fileName : String) (fileSize : Option ℕ) : ℚ :=
  (charSum fileName : ℚ) / 1000 + fileSizeFactor fileSize

/-- The three locals `authenticity`, `manipulationProbability`, `isDeepfake`
of generateAnalysisResults. -/
structure Verdict where
  authenticity : ℚ
  manipulationProbability : ℚ
  isDeepfake : Bool

/-- Lines 109–132: the branch on forced/webcam, video, and other uploads
computing authenticity, manipulation probability and the verdict. -/
def computeVerdict (sin : ℚ → ℚ) (type fileName : String) (forceAuthentic : Bool)
    (seed : ℚ) (mlResults : MLAnalysisResult) : Verdict :=
  if forceAuthentic || strIncludes fileName "webcam-capture" then
    let authenticity : ℚ := 90 + sin (seed * 5) * 5
    { authenticity := authenticity
      manipulationProbability := 100 - authenticity
      isDeepfake := false }
  else if type = "video" then
    let authenticity : ℚ :=
      if mlResults.confidence > 0 then
        (if mlResults.isDeepfake then 35 + sin (seed * 5) * 15
         else 80 + sin (seed * 5) * 10)
      else 50 + sin (seed * 5) * 40
    let manipulationProbability : ℚ := 100 - authenticity
    { authenticity := authenticity
      manipulationProbability := manipulationProbability
      isDeepfake :=
        if mlResults.confidence > 0 then mlResults.isDeepfake
        else decide (manipulationProbability > 60) }
  else
    let authenticity : ℚ :=
      if mlResults.confidence > 0 then
        (if mlResults.isDeepfake then 35 + sin (seed * 5) * 15
         else 75 + sin (seed * 5) * 15)
      else 50 + sin (seed * 5) * 40
    let manipulationProbability : ℚ := 100 - authenticity
    { authenticity := authenticity
      manipulationProbability := manipulationProbability
      isDeepfake :=
        if mlResults.confidence > 0 then mlResults.isDeepfake
        else decide (manipulationProbability > 60) }

/-- Lines 144–183: the per-media-kind specific metrics.  `x || y` on the
feature reads is the falsy fallback `jsOr`. -/
def specificMetricsOf (sin : ℚ → ℚ) (type : String) (seed : ℚ)
    (forceAuthentic : Bool) (mlResults : MLAnalysisResult)
    (isDeepfake : Bool) : SpecificMetrics :=
  if type = "video" then
    SpecificMetrics.video
      { frameConsistency :=
          if forceAuthentic then 90 + sin (seed * 11) * 5
          else jsOr mlResults.features.textureConsistency
            (if isDeepfake then 55 + sin (seed * 11) * 15 else 85 + sin (seed * 11) * 10)
        facialAnomaly :=
          if forceAuthentic then 15 + sin (seed * 13) * 5
          else jsOr mlResults.features.artificialPatterns
            (if isDeepfake then 67 + sin (seed * 13) * 20 else 25 + sin (seed * 13) * 15)
        audioVideoSync :=
          if forceAuthentic then 92 + sin (seed * 17) * 5
          else (if isDeepfake then 48 + sin (seed * 17) * 20 else 88 + sin (seed * 17) * 10)
        temporalCoherence :=
          if forceAuthentic then 88 + sin (seed * 19) * 5
          else jsOr mlResults.features.textureConsistency
            (if isDeepfake then 52 + sin (seed * 19) * 15 else 82 + sin (seed * 19) * 10)
        neuralInconsistency :=
          if forceAuthentic then 18 + sin (seed * 23) * 5
          else jsOr mlResults.features.artificialPatterns
            (if isDeepfake then 75 + sin (seed * 23) * 15 else 30 + sin (seed * 23) * 20) }
  else if type = "audio" then
    SpecificMetrics.audio
      { voicePrintAuthenticity :=
          if forceAuthentic then 90 + sin (seed * 11) * 5
          else (if isDeepfake then 45 + sin (seed * 11) * 15 else 85 + sin (seed * 11) * 10)
        backgroundNoiseAnalysis :=
          if forceAuthentic then 20 + sin (seed * 13) * 5
          else (if isDeepfake then 60 + sin (seed * 13) * 15 else 25 + sin (seed * 13) * 10)
        frequencyAnomalies :=
          if forceAuthentic then 15 + sin (seed * 17) * 5
          else (if isDeepfake then 72 + sin (seed * 17) * 15 else 30 + sin (seed * 17) * 10)
        prosodyConsistency :=
          if forceAuthentic then 88 + sin (seed * 19) * 5
          else (if isDeepfake then 48 + sin (seed * 19) * 15 else 82 + sin (seed * 19) * 10)
        spectrogramPatterns :=
          if forceAuthentic then 22 + sin (seed * 23) * 5
          else (if isDeepfake then 70 + sin (seed * 23) * 15 else 32 + sin (seed * 23) * 15) }
  else
    SpecificMetrics.image
      { metadataConsistency :=
          if forceAuthentic then 90 + sin (seed * 11) * 5
          else jsOr mlResults.features.naturalFeatures
            (if isDeepfake then 55 + sin (seed * 11) * 15 else 80 + sin (seed * 11) * 15)
        pixelAnomalies :=
          if forceAuthentic then 15 + sin (seed * 13) * 5
          else jsOr mlResults.features.artificialPatterns
            (if isDeepfake then 65 + sin (seed * 13) * 20 else 30 + sin (seed * 13) * 15)
        lightingConsistency :=
          if forceAuthentic then 92 + sin (seed * 17) * 5
          else jsOr mlResults.features.lighting
            (if isDeepfake then 45 + sin (seed * 17) * 20 else 75 + sin (seed * 17) * 15)
        textureAnalysis :=
          if forceAuthentic then 88 + sin (seed * 19) * 5
          else jsOr mlResults.features.textureConsistency
            (if isDeepfake then 40 + sin (seed * 19) * 15 else 82 + sin (seed * 19) * 10)
        neuralInconsistency :=
          if forceAuthentic then 20 + sin (seed * 23) * 5
          else jsOr mlResults.features.artificialPatterns
            (if isDeepfake then 72 + sin (seed * 23) * 15 else 25 + sin (seed * 23) * 15) }

/-- Percentage interpolation `${Math.round(x)}` as used in the explanation
templates. -/
def pct (q : ℚ) : String := toString (jsRound q)

/-- Lines 186–202: the base explanation templates, selected by media kind
and verdict.  The TS code branches on `type` and casts `specificMetrics`;
here the variant of `SpecificMetrics` plays the discriminant (it is built
from the same `type` string, so the match is exhaustive by construction and
the wildcard arms are unreachable). -/
def baseExplanation (isDeepfake : Bool) : SpecificMetrics → String
  | SpecificMetrics.video m =>
      if isDeepfake then
        "This video exhibits multiple deepfake indicators from our DFDC-trained model. We detected inconsistent temporal coherence (" ++ pct m.temporalCoherence ++ "% anomaly), facial morphology anomalies (" ++ pct m.facialAnomaly ++ "% detection), and audio-visual desynchronization (" ++ pct m.audioVideoSync ++ "% mismatch). These patterns strongly match known GAN-based deepfake generation methods."
      else
        "This video appears authentic based on our DFD comparison analysis. We observed natural frame transitions (" ++ pct m.frameConsistency ++ "% consistency), expected facial landmark movement (" ++ pct m.facialAnomaly ++ "% normal detection), and properly synchronized audio-visual elements (" ++ pct m.audioVideoSync ++ "% match). No significant manipulation artifacts were detected."
  | SpecificMetrics.audio m =>
      if isDeepfake then
        "This audio shows signs of synthetic voice generation including unusual voiceprint patterns (" ++ pct m.voicePrintAuthenticity ++ "% anomaly), spectral irregularities (" ++ pct m.spectrogramPatterns ++ "% detection), and prosody inconsistencies (" ++ pct m.prosodyConsistency ++ "% mismatch). These characteristics match patterns in our DFDC-trained voice synthesis detection model."
      else
        "This audio displays natural voice characteristics with consistent voiceprint (" ++ pct m.voicePrintAuthenticity ++ "% authenticity), normal spectral distribution (" ++ pct m.spectrogramPatterns ++ "% within normal range), and expected prosody patterns (" ++ pct m.prosodyConsistency ++ "% natural). No significant synthetic voice indicators were detected."
  | SpecificMetrics.image m =>
      if isDeepfake then
        "This image contains multiple manipulation indicators identified by our DFD-trained model. We detected neural inconsistencies (" ++ pct m.neuralInconsistency ++ "% anomaly), texture irregularities (" ++ pct m.textureAnalysis ++ "% unnatural), and lighting discrepancies (" ++ pct m.lightingConsistency ++ "% mismatch). These patterns are consistent with GAN-generated or manipulated imagery."
      else
        "This image appears authentic based on our dataset comparison. We observed natural texture patterns (" ++ pct m.textureAnalysis ++ "% natural), consistent lighting (" ++ pct m.lightingConsistency ++ "% consistent), and expected neural patterns (" ++ pct m.neuralInconsistency ++ "% normal). No significant manipulation artifacts were detected."

/-- Lines 186–213: base explanation plus the webcam/forced override, which
replaces the text for image and video kinds only. -/
def explanationOf (fileName type : String) (forceAuthentic isDeepfake : Bool)
    (sm : SpecificMetrics) : String :=
  let base := baseExplanation isDeepfake sm
  if strIncludes fileName "webcam-capture" || forceAuthentic then
    if type = "image" then
      match sm with
      | SpecificMetrics.image m =>
          "Live webcam capture verified as authentic. Natural lighting patterns (" ++ pct m.lightingConsistency ++ "% consistent) and expected texture characteristics (" ++ pct m.textureAnalysis ++ "% natural) confirm this is an original capture from your device."
      | _ => base
    else if type = "video" then
      match sm with
      | SpecificMetrics.video m =>
          "Live webcam recording verified as authentic. Natural frame transitions (" ++ pct m.frameConsistency ++ "% consistency) and expected facial movements (" ++ pct m.facialAnomaly ++ "% normal detection) confirm this is an original recording from your device."
      | _ => base
    else base
  else base

/-- `generateAnalysisResults` from analysisUtils.ts.  `fileSize` is
`fileData?.size` (`none` models a null/absent `fileData`);
`classifierOutcome` abstracts the awaited `analyzeImageWithML(fileData)`
call (`Except.error` = the call threw and the catch kept the defaults);
`now` is `new Date().toISOString()`. -/
def generateAnalysisResults (sin : ℚ → ℚ) (type fileName : String)
    (fileSize : Option ℕ) (forceAuthentic : Bool)
    (classifierOutcome : Except Unit MLAnalysisResult) (now : String) :
    AnalysisResult :=
  let mlResults :=
    mlOverride forceAuthentic (resolveML type fileSize forceAuthentic classifierOutcome)
  let seed := seedOf fileName fileSize
  let v := computeVerdict sin type fileName forceAuthentic seed mlResults
  let baseMetrics : BaseMetrics :=
    { authenticity := v.authenticity
      manipulationProbability := v.manipulationProbability
      confidence := 75 + sin (seed * 7) * 15 }
  let specificMetrics := specificMetricsOf sin type seed forceAuthentic mlResults v.isDeepfake
  { overallResult := if v.isDeepfake then "Potential Deepfake Detected" else "Verified Authentic"
    isDeepfake := v.isDeepfake
    baseMetrics := baseMetrics
    specificMetrics := specificMetrics
    mediaType := type
    fileName := fileName
    analysisDate := now
    datasetReference := "Based on DFDC & DFD datasets"
    confidenceInterval :=
      toString (jsRound (baseMetrics.confidence - 8)) ++ "%-" ++
        toString (jsRound (baseMetrics.confidence + 8)) ++ "%"
    analysisVersion := "1.2.1"
    detailedExplanation := explanationOf fileName type forceAuthentic v.isDeepfake specificMetrics
    downloadable := true }

/-!  ## Helper lemmas  -/

/-- Every branch of the verdict computation sets the manipulation
probability to the complement of authenticity. -/
lemma computeVerdict_mp (sin : ℚ → ℚ) (type fileName : String)
    (forceAuthentic : Bool) (seed : ℚ) (ml : MLAnalysisResult) :
    (computeVerdict sin type fileName forceAuthentic seed ml).manipulationProbability
      = 100 - (computeVerdict sin type fileName forceAuthentic seed ml).authenticity := by
  unfold computeVerdict
  split_ifs <;> rfl

/-- In the forced/webcam branch the verdict is the fixed sine formula. -/
lemma computeVerdict_forced (sin : ℚ → ℚ) (type fileName : String)
    (forceAuthentic : Bool) (seed : ℚ) (ml : MLAnalysisResult)
    (hb : (forceAuthentic || strIncludes fileName "webcam-capture") = true) :
    computeVerdict sin type fileName forceAuthentic seed ml =
      { authenticity := 90 + sin (seed * 5) * 5
        manipulationProbability := 100 - (90 + sin (seed * 5) * 5)
        isDeepfake := false } := by
  unfold computeVerdict
  simp [hb]

/-!  ## Claims  -/

/-- Claim C1: for every result of the Score Generator, regardless of media
kind, file name, bytes, force flag, classifier behaviour or clock,
`baseMetrics.manipulationProbability` equals exactly
`100 - baseMetrics.authenticity`. -/
theorem manipulation_complement_of_authenticity (sin : ℚ → ℚ)
    (type fileName : String) (fileSize : Option ℕ) (forceAuthentic : Bool)
    (outcome : Except Unit MLAnalysisResult) (now : String) :
    (generateAnalysisResults sin type fileName fileSize forceAuthentic outcome now).baseMetrics.manipulationProbability
      = 100 - (generateAnalysisResults sin type fileName fileSize forceAuthentic outcome now).baseMetrics.authenticity :=
  computeVerdict_mp sin type fileName forceAuthentic (seedOf fileName fileSize)
    (mlOverride forceAuthentic (resolveML type fileSize forceAuthentic outcome))

/-- Claim C2: the Score Generator's metric outputs are deterministic: with
identical media kind, file name, size, force flag and classifier behaviour,
`baseMetrics` and `specificMetrics` are identical — in particular they do
not depend on the wall clock, the only impure input left. -/
theorem metrics_deterministic (sin : ℚ → ℚ) (type fileName : String)
    (fileSize : Option ℕ) (forceAuthentic : Bool)
    (outcome : Except Unit MLAnalysisResult) (now₁ now₂ : String) :
    (generateAnalysisResults sin type fileName fileSize forceAuthentic outcome now₁).baseMetrics
      = (generateAnalysisResults sin type fileName fileSize forceAuthentic outcome now₂).baseMetrics
    ∧ (generateAnalysisResults sin type fileName fileSize forceAuthentic outcome now₁).specificMetrics
      = (generateAnalysisResults sin type fileName fileSize forceAuthentic outcome now₂).specificMetrics :=
  ⟨rfl, rfl⟩

/-- Claim C3, counterexample: a file named "webcam-capture.jpg" analysed
with forceAuthentic = false does NOT get its classifier result replaced by
the fixed authentic tuple — the claimed override fires on the flag only.
Here the classifier ran (top score 0.7) and its result, confidence 70, is
kept as `mlResults` downstream, differing from the fixed tuple's 90. -/
theorem webcam_name_does_not_override_ml :
    strIncludes "webcam-capture.jpg" "webcam-capture" = true ∧
    mlOverride false (resolveML "image" (some 500) false (Except.ok
        (analyzeImageWithML (MLInput.blob (some "webcam-capture.jpg")) (Except.ok [7 / 10]))))
      ≠ mlForcedAuthentic := by
  refine ⟨by decide, ?_⟩
  intro h
  have h2 := congrArg MLAnalysisResult.confidence h
  simp [mlOverride, resolveML, classifierAttempted, analyzeImageWithML,
    confidenceScoreOf, mlForcedAuthentic] at h2
  norm_num at h2

/-- Claim C3, amended: only `forceAuthentic = true` replaces the
intermediate `mlResults` with the fixed tuple {isDeepfake := false,
confidence := 90, features := {12, 92, 95, 90}}, discarding any classifier
result; with the flag false the resolved classifier result is passed
through unchanged, whatever the file name. -/
theorem force_flag_alone_overrides_ml (type : String) (fileSize : Option ℕ)
    (outcome : Except Unit MLAnalysisResult) (ml : MLAnalysisResult) :
    mlOverride true (resolveML type fileSize true outcome) = mlForcedAuthentic
    ∧ mlOverride false ml = ml :=
  ⟨rfl, rfl⟩

/-- Claim C6: the Classifier Adapter never propagates a failure — it is a
total function, and on any throwing initialization or inference it returns
the fixed fallback tuple selected by the webcam check on the input's name:
confidence 95 / authentic for webcam-named input, confidence 65 / deepfake
otherwise. -/
theorem ml_failure_returns_fallback (imageData : MLInput) (u : Unit) :
    analyzeImageWithML imageData (Except.error u) =
      (if mlIsWebcam imageData then
        { isDeepfake := false, confidence := 95,
          features := { artificialPatterns := 15, naturalFeatures := 90,
                        textureConsistency := 85, lighting := 90 } }
      else
        { isDeepfake := true, confidence := 65,
          features := { artificialPatterns := 75, naturalFeatures := 30,
                        textureConsistency := 35, lighting := 40 } }) := by
  cases h : mlIsWebcam imageData <;> simp [analyzeImageWithML, h]

/-- Claim C8: for every result, `confidenceInterval` is the string
`round(confidence - 8) ++ "%-" ++ round(confidence + 8) ++ "%"` built from
`baseMetrics.confidence`. -/
theorem confidence_interval_format (sin : ℚ → ℚ) (type fileName : String)
    (fileSize : Option ℕ) (forceAuthentic : Bool)
    (outcome : Except Unit MLAnalysisResult) (now : String) :
    (generateAnalysisResults sin type fileName fileSize forceAuthentic outcome now).confidenceInterval
      = toString (jsRound ((generateAnalysisResults sin type fileName fileSize forceAuthentic outcome now).baseMetrics.confidence - 8))
        ++ "%-" ++
        toString (jsRound ((generateAnalysisResults sin type fileName fileSize forceAuthentic outcome now).baseMetrics.confidence + 8))
        ++ "%" :=
  rfl

/-- Claim C10: a string input (e.g. a data URL) is never recognized as a
webcam capture; on success the verdict is the bare threshold
`confidence > 60`, and on failure the fallback is always the suspicious
tuple. -/
theorem string_input_never_webcam (data : String) (scores : List ℚ) (u : Unit) :
    mlIsWebcam (MLInput.str data) = false ∧
    (analyzeImageWithML (MLInput.str data) (Except.ok scores)).isDeepfake
      = decide (confidenceScoreOf scores > 60) ∧
    analyzeImageWithML (MLInput.str data) (Except.error u)
      = { isDeepfake := true, confidence := 65,
          features := { artificialPatterns := 75, naturalFeatures := 30,
                        textureConsistency := 35, lighting := 40 } } :=
  ⟨rfl, rfl, rfl⟩

/-- Claim C4: whenever `forceAuthentic` is set or the file name contains
"webcam-capture", the verdict is authentic and the authenticity score is
`90 + 5·sin(5·seed)`, which lies in [85, 95]. -/
theorem forced_or_webcam_authentic_range (sin : ℚ → ℚ) (type fileName : String)
    (fileSize : Option ℕ) (forceAuthentic : Bool)
    (outcome : Except Unit MLAnalysisResult) (now : String)
    (hsin : ∀ x, -1 ≤ sin x ∧ sin x ≤ 1)
    (hcond : forceAuthentic = true ∨ strIncludes fileName "webcam-capture" = true) :
    (generateAnalysisResults sin type fileName fileSize forceAuthentic outcome now).isDeepfake = false ∧
    (generateAnalysisResults sin type fileName fileSize forceAuthentic outcome now).baseMetrics.authenticity
      = 90 + sin (seedOf fileName fileSize * 5) * 5 ∧
    85 ≤ (generateAnalysisResults sin type fileName fileSize forceAuthentic outcome now).baseMetrics.authenticity ∧
    (generateAnalysisResults sin type fileName fileSize forceAuthentic outcome now).baseMetrics.authenticity ≤ 95 := by
  have hb : (forceAuthentic || strIncludes fileName "webcam-capture") = true := by
    rcases hcond with h | h <;> simp [h]
  have hv := computeVerdict_forced sin type fileName forceAuthentic
    (seedOf fileName fileSize)
    (mlOverride forceAuthentic (resolveML type fileSize forceAuthentic outcome)) hb
  have e1 : (generateAnalysisResults sin type fileName fileSize forceAuthentic outcome now).isDeepfake
      = (computeVerdict sin type fileName forceAuthentic (seedOf fileName fileSize)
          (mlOverride forceAuthentic (resolveML type fileSize forceAuthentic outcome))).isDeepfake := rfl
  have e2 : (generateAnalysisResults sin type fileName fileSize forceAuthentic outcome now).baseMetrics.authenticity
      = (computeVerdict sin type fileName forceAuthentic (seedOf fileName fileSize)
          (mlOverride forceAuthentic (resolveML type fileSize forceAuthentic outcome))).authenticity := rfl
  rw [e1, e2, hv]
  obtain ⟨hl, hr⟩ := hsin (seedOf fileName fileSize * 5)
  refine ⟨rfl, rfl, ?_, ?_⟩ <;> dsimp only <;> nlinarith

/-- Witness for C4 at the concrete input: sin ≡ 0, an image named
"webcam-capture.jpg", no bytes, forceAuthentic = false. -/
theorem forced_or_webcam_authentic_range_witness :
    (generateAnalysisResults (fun _ => 0) "image" "webcam-capture.jpg" none false (Except.error ()) "t").isDeepfake = false ∧
    85 ≤ (generateAnalysisResults (fun _ => 0) "image" "webcam-capture.jpg" none false (Except.error ()) "t").baseMetrics.authenticity := by
  have h := forced_or_webcam_authentic_range (fun _ => 0) "image" "webcam-capture.jpg"
    none false (Except.error ()) "t" (fun x => by norm_num) (Or.inr (by decide))
  exact ⟨h.1, h.2.2.1⟩

/-- Claim C7: the Score Generator has no error channel — a throwing
classifier call is observationally identical to a classifier that returned
the zeroed defaults, and whenever bytes are missing, the media kind is
neither image nor video, or the force flag is set, the classifier outcome
is ignored entirely and the zeroed defaults are kept. -/
theorem no_error_channel_defaults (sin : ℚ → ℚ) (type fileName : String)
    (fileSize : Option ℕ) (forceAuthentic : Bool) (u : Unit)
    (outcome : Except Unit MLAnalysisResult) (now : String) :
    generateAnalysisResults sin type fileName fileSize forceAuthentic (Except.error u) now
      = generateAnalysisResults sin type fileName fileSize forceAuthentic (Except.ok mlDefault) now
    ∧ (fileSize = none ∨ (type ≠ "image" ∧ type ≠ "video") ∨ forceAuthentic = true →
        resolveML type fileSize forceAuthentic outcome = mlDefault) := by
  constructor
  · rfl
  · intro h
    have hatt : classifierAttempted type fileSize forceAuthentic = false := by
      rcases h with h | ⟨h1, h2⟩ | h
      · subst h; rfl
      · simp [classifierAttempted, h1, h2]
      · subst h; simp [classifierAttempted]
    simp [resolveML, hatt]

/-- Witness for C7: a concrete audio upload with bytes — the media kind is
not image/video, so the classifier result is discarded in favour of the
zeroed defaults. -/
theorem no_error_channel_defaults_witness :
    resolveML "audio" (some 5) false (Except.ok mlForcedAuthentic) = mlDefault := by
  have h := no_error_channel_defaults (fun _ => 0) "audio" "a.mp3" (some 5) false ()
    (Except.ok mlForcedAuthentic) "t"
  exact h.2 (Or.inr (Or.inl ⟨by decide, by decide⟩))

/-- Claim C9: for an image named "test.jpg" with no bytes and
forceAuthentic = false, the classifier is skipped (defaults kept for any
classifier behaviour), the seed is charSum("test.jpg")/1000 = 0.815,
authenticity is `50 + 40·sin(5·seed)`, and the verdict is exactly the
threshold test `manipulationProbability > 60`. -/
theorem test_jpg_no_bytes_behaviour (sin : ℚ → ℚ)
    (outcome : Except Unit MLAnalysisResult) (now : String) :
    resolveML "image" none false outcome = mlDefault ∧
    seedOf "test.jpg" none = 815 / 1000 ∧
    (generateAnalysisResults sin "image" "test.jpg" none false outcome now).baseMetrics.authenticity
      = 50 + sin (815 / 1000 * 5) * 40 ∧
    (generateAnalysisResults sin "image" "test.jpg" none false outcome now).isDeepfake
      = decide ((generateAnalysisResults sin "image" "test.jpg" none false outcome now).baseMetrics.manipulationProbability > 60) := by
  have hseed : seedOf "test.jpg" none = 815 / 1000 := by
    have hc : charSum "test.jpg" = 815 := by decide
    simp [seedOf, fileSizeFactor, hc]
  refine ⟨rfl, hseed, ?_, rfl⟩
  have hgen : (generateAnalysisResults sin "image" "test.jpg" none false outcome now).baseMetrics.authenticity
      = 50 + sin (seedOf "test.jpg" none * 5) * 40 := rfl
  rw [hgen, hseed]

/-!  ## Range predicates and lemmas for the [0,100] invariant  -/

/-- A percentage-valued field: lies in [0, 100]. -/
def pctRange (q : ℚ) : Prop := 0 ≤ q ∧ q ≤ 100

instance (q : ℚ) : Decidable (pctRange q) := by unfold pctRange; infer_instance

/-- All four classifier feature values lie in [0, 100]. -/
def mlFeaturesInRange (f : MLFeatures) : Prop :=
  pctRange f.artificialPatterns ∧ pctRange f.naturalFeatures ∧
    pctRange f.textureConsistency ∧ pctRange f.lighting

/-- Classifier confidence and feature values lie in [0, 100]. -/
def mlInRange (ml : MLAnalysisResult) : Prop :=
  pctRange ml.confidence ∧ mlFeaturesInRange ml.features

/-- All five media-specific metric fields lie in [0, 100]. -/
def specificInRange : SpecificMetrics → Prop
  | SpecificMetrics.video m =>
      pctRange m.frameConsistency ∧ pctRange m.facialAnomaly ∧
        pctRange m.audioVideoSync ∧ pctRange m.temporalCoherence ∧
        pctRange m.neuralInconsistency
  | SpecificMetrics.audio m =>
      pctRange m.voicePrintAuthenticity ∧ pctRange m.backgroundNoiseAnalysis ∧
        pctRange m.frequencyAnomalies ∧ pctRange m.prosodyConsistency ∧
        pctRange m.spectrogramPatterns
  | SpecificMetrics.image m =>
      pctRange m.metadataConsistency ∧ pctRange m.pixelAnomalies ∧
        pctRange m.lightingConsistency ∧ pctRange m.textureAnalysis ∧
        pctRange m.neuralInconsistency

lemma affine_pctRange (s a b : ℚ) (hs1 : -1 ≤ s) (hs2 : s ≤ 1)
    (ha : 0 ≤ a) (hlo : a ≤ b) (hhi : b + a ≤ 100) : pctRange (b + s * a) := by
  constructor <;> nlinarith

lemma ite_pctRange (c : Prop) [Decidable c] (x y : ℚ)
    (hx : pctRange x) (hy : pctRange y) : pctRange (if c then x else y) := by
  split_ifs <;> assumption

lemma jsOr_pctRange (x y : ℚ) (hx : pctRange x) (hy : pctRange y) :
    pctRange (jsOr x y) := by
  unfold jsOr; split_ifs <;> assumption

/-- One specific-metric field of the shape
`forceAuthentic ? b0 + s*a0 : (feature || (isDeepfake ? b1 + s*a1 : b2 + s*a2))`
stays in [0, 100]. -/
lemma fieldOr_pctRange {s f : ℚ} {fa d : Bool} {b0 a0 b1 a1 b2 a2 : ℚ}
    (hs1 : -1 ≤ s) (hs2 : s ≤ 1) (hf : pctRange f)
    (h0a : 0 ≤ a0) (h0b : a0 ≤ b0) (h0c : b0 + a0 ≤ 100)
    (h1a : 0 ≤ a1) (h1b : a1 ≤ b1) (h1c : b1 + a1 ≤ 100)
    (h2a : 0 ≤ a2) (h2b : a2 ≤ b2) (h2c : b2 + a2 ≤ 100) :
    pctRange (if fa then b0 + s * a0 else jsOr f (if d then b1 + s * a1 else b2 + s * a2)) := by
  split_ifs
  · exact affine_pctRange s a0 b0 hs1 hs2 h0a h0b h0c
  · exact jsOr_pctRange _ _ hf (affine_pctRange s a1 b1 hs1 hs2 h1a h1b h1c)
  · exact jsOr_pctRange _ _ hf (affine_pctRange s a2 b2 hs1 hs2 h2a h2b h2c)

/-- One specific-metric field of the shape
`forceAuthentic ? b0 + s*a0 : (isDeepfake ? b1 + s*a1 : b2 + s*a2)`
stays in [0, 100]. -/
lemma fieldPlain_pctRange {s : ℚ} {fa d : Bool} {b0 a0 b1 a1 b2 a2 : ℚ}
    (hs1 : -1 ≤ s) (hs2 : s ≤ 1)
    (h0a : 0 ≤ a0) (h0b : a0 ≤ b0) (h0c : b0 + a0 ≤ 100)
    (h1a : 0 ≤ a1) (h1b : a1 ≤ b1) (h1c : b1 + a1 ≤ 100)
    (h2a : 0 ≤ a2) (h2b : a2 ≤ b2) (h2c : b2 + a2 ≤ 100) :
    pctRange (if fa then b0 + s * a0 else if d then b1 + s * a1 else b2 + s * a2) := by
  split_ifs
  · exact affine_pctRange s a0 b0 hs1 hs2 h0a h0b h0c
  · exact affine_pctRange s a1 b1 hs1 hs2 h1a h1b h1c
  · exact affine_pctRange s a2 b2 hs1 hs2 h2a h2b h2c

/-- Every specific metric stays in [0, 100] whenever sin is bounded and the
classifier feature values are themselves percentages. -/
lemma specificMetricsOf_inRange (sin : ℚ → ℚ) (type : String) (seed : ℚ)
    (forceAuthentic : Bool) (ml : MLAnalysisResult) (isDeepfake : Bool)
    (hsin : ∀ x, -1 ≤ sin x ∧ sin x ≤ 1) (hml : mlFeaturesInRange ml.features) :
    specificInRange (specificMetricsOf sin type seed forceAuthentic ml isDeepfake) := by
  obtain ⟨hap, hnf, htc, hlt⟩ := hml
  have h11 := hsin (seed * 11)
  have h13 := hsin (seed * 13)
  have h17 := hsin (seed * 17)
  have h19 := hsin (seed * 19)
  have h23 := hsin (seed * 23)
  unfold specificMetricsOf
  by_cases hv : type = "video"
  · rw [if_pos hv]
    refine ⟨?_, ?_, ?_, ?_, ?_⟩ <;> dsimp only
    · exact fieldOr_pctRange h11.1 h11.2 htc (by norm_num) (by norm_num) (by norm_num)
        (by norm_num) (by norm_num) (by norm_num) (by norm_num) (by norm_num) (by norm_num)
    · exact fieldOr_pctRange h13.1 h13.2 hap (by norm_num) (by norm_num) (by norm_num)
        (by norm_num) (by norm_num) (by norm_num) (by norm_num) (by norm_num) (by norm_num)
    · exact fieldPlain_pctRange h17.1 h17.2 (by norm_num) (by norm_num) (by norm_num)
        (by norm_num) (by norm_num) (by norm_num) (by norm_num) (by norm_num) (by norm_num)
    · exact fieldOr_pctRange h19.1 h19.2 htc (by norm_num) (by norm_num) (by norm_num)
        (by norm_num) (by norm_num) (by norm_num) (by norm_num) (by norm_num) (by norm_num)
    · exact fieldOr_pctRange h23.1 h23.2 hap (by norm_num) (by norm_num) (by norm_num)
        (by norm_num) (by norm_num) (by norm_num) (by norm_num) (by norm_num) (by norm_num)
  · rw [if_neg hv]
    by_cases ha : type = "audio"
    · rw [if_pos ha]
      refine ⟨?_, ?_, ?_, ?_, ?_⟩ <;> dsimp only
      · exact fieldPlain_pctRange h11.1 h11.2 (by norm_num) (by norm_num) (by norm_num)
          (by norm_num) (by norm_num) (by norm_num) (by norm_num) (by norm_num) (by norm_num)
      · exact fieldPlain_pctRange h13.1 h13.2 (by norm_num) (by norm_num) (by norm_num)
          (by norm_num) (by norm_num) (by norm_num) (by norm_num) (by norm_num) (by norm_num)
      · exact fieldPlain_pctRange h17.1 h17.2 (by norm_num) (by norm_num) (by norm_num)
          (by norm_num) (by norm_num) (by norm_num) (by norm_num) (by norm_num) (by norm_num)
      · exact fieldPlain_pctRange h19.1 h19.2 (by norm_num) (by norm_num) (by norm_num)
          (by norm_num) (by norm_num) (by norm_num) (by norm_num) (by norm_num) (by norm_num)
      · exact fieldPlain_pctRange h23.1 h23.2 (by norm_num) (by norm_num) (by norm_num)
          (by norm_num) (by norm_num) (by norm_num) (by norm_num) (by norm_num) (by norm_num)
    · rw [if_neg ha]
      refine ⟨?_, ?_, ?_, ?_, ?_⟩ <;> dsimp only
      · exact fieldOr_pctRange h11.1 h11.2 hnf (by norm_num) (by norm_num) (by norm_num)
          (by norm_num) (by norm_num) (by norm_num) (by norm_num) (by norm_num) (by norm_num)
      · exact fieldOr_pctRange h13.1 h13.2 hap (by norm_num) (by norm_num) (by norm_num)
          (by norm_num) (by norm_num) (by norm_num) (by norm_num) (by norm_num) (by norm_num)
      · exact fieldOr_pctRange h17.1 h17.2 hlt (by norm_num) (by norm_num) (by norm_num)
          (by norm_num) (by norm_num) (by norm_num) (by norm_num) (by norm_num) (by norm_num)
      · exact fieldOr_pctRange h19.1 h19.2 htc (by norm_num) (by norm_num) (by norm_num)
          (by norm_num) (by norm_num) (by norm_num) (by norm_num) (by norm_num) (by norm_num)
      · exact fieldOr_pctRange h23.1 h23.2 hap (by norm_num) (by norm_num) (by norm_num)
          (by norm_num) (by norm_num) (by norm_num) (by norm_num) (by norm_num) (by norm_num)

/-- The authenticity score of every verdict branch stays in [0, 100] for
bounded sin. -/
lemma computeVerdict_auth_range (sin : ℚ → ℚ) (type fileName : String)
    (forceAuthentic : Bool) (seed : ℚ) (ml : MLAnalysisResult)
    (hsin : ∀ x, -1 ≤ sin x ∧ sin x ≤ 1) :
    pctRange (computeVerdict sin type fileName forceAuthentic seed ml).authenticity := by
  obtain ⟨hl, hr⟩ := hsin (seed * 5)
  unfold computeVerdict
  split_ifs <;> dsimp only <;> constructor <;> nlinarith

/-- The forced override preserves feature ranges: the fixed tuple's
features are percentages, and without the flag the features are unchanged. -/
lemma mlOverride_featuresInRange (forceAuthentic : Bool) (ml : MLAnalysisResult)
    (h : mlFeaturesInRange ml.features) :
    mlFeaturesInRange (mlOverride forceAuthentic ml).features := by
  cases forceAuthentic
  · exact h
  · refine ⟨⟨?_, ?_⟩, ⟨?_, ?_⟩, ⟨?_, ?_⟩, ⟨?_, ?_⟩⟩ <;>
      norm_num [mlOverride, mlForcedAuthentic]

/-- Claim C5: for every input — all media kinds, all seeds, forced,
classifier-ran or no-classifier branches — as long as sin is bounded and
the resolved classifier confidence and features are percentages, every
percentage-valued field of the result (authenticity, manipulation
probability, confidence, and all five specific metrics) lies in [0, 100]. -/
theorem all_percentages_in_range (sin : ℚ → ℚ) (type fileName : String)
    (fileSize : Option ℕ) (forceAuthentic : Bool)
    (outcome : Except Unit MLAnalysisResult) (now : String)
    (hsin : ∀ x, -1 ≤ sin x ∧ sin x ≤ 1)
    (hml : mlInRange (resolveML type fileSize forceAuthentic outcome)) :
    pctRange (generateAnalysisResults sin type fileName fileSize forceAuthentic outcome now).baseMetrics.authenticity ∧
    pctRange (generateAnalysisResults sin type fileName fileSize forceAuthentic outcome now).baseMetrics.manipulationProbability ∧
    pctRange (generateAnalysisResults sin type fileName fileSize forceAuthentic outcome now).baseMetrics.confidence ∧
    specificInRange (generateAnalysisResults sin type fileName fileSize forceAuthentic outcome now).specificMetrics := by
  have hMf : mlFeaturesInRange
      (mlOverride forceAuthentic (resolveML type fileSize forceAuthentic outcome)).features :=
    mlOverride_featuresInRange _ _ hml.2
  have e1 : (generateAnalysisResults sin type fileName fileSize forceAuthentic outcome now).baseMetrics.authenticity
      = (computeVerdict sin type fileName forceAuthentic (seedOf fileName fileSize)
          (mlOverride forceAuthentic (resolveML type fileSize forceAuthentic outcome))).authenticity := rfl
  have e2 : (generateAnalysisResults sin type fileName fileSize forceAuthentic outcome now).baseMetrics.manipulationProbability
      = (computeVerdict sin type fileName forceAuthentic (seedOf fileName fileSize)
          (mlOverride forceAuthentic (resolveML type fileSize forceAuthentic outcome))).manipulationProbability := rfl
  have e3 : (generateAnalysisResults sin type fileName fileSize forceAuthentic outcome now).baseMetrics.confidence
      = 75 + sin (seedOf fileName fileSize * 7) * 15 := rfl
  have e4 : (generateAnalysisResults sin type fileName fileSize forceAuthentic outcome now).specificMetrics
      = specificMetricsOf sin type (seedOf fileName fileSize) forceAuthentic
          (mlOverride forceAuthentic (resolveML type fileSize forceAuthentic outcome))
          (computeVerdict sin type fileName forceAuthentic (seedOf fileName fileSize)
            (mlOverride forceAuthentic (resolveML type fileSize forceAuthentic outcome))).isDeepfake := rfl
  have hauth := computeVerdict_auth_range sin type fileName forceAuthentic
    (seedOf fileName fileSize)
    (mlOverride forceAuthentic (resolveML type fileSize forceAuthentic outcome)) hsin
  have hmp := computeVerdict_mp sin type fileName forceAuthentic
    (seedOf fileName fileSize)
    (mlOverride forceAuthentic (resolveML type fileSize forceAuthentic outcome))
  obtain ⟨ha1, ha2⟩ := hauth
  refine ⟨?_, ?_, ?_, ?_⟩
  · rw [e1]; exact ⟨ha1, ha2⟩
  · rw [e2, hmp]
    exact ⟨by linarith, by linarith⟩
  · rw [e3]
    exact affine_pctRange _ _ _ (hsin _).1 (hsin _).2 (by norm_num) (by norm_num) (by norm_num)
  · rw [e4]
    exact specificMetricsOf_inRange _ _ _ _ _ _ hsin hMf

/-- Witness for C5 at a concrete input: sin ≡ 0, an audio file with no
bytes, where the resolved classifier result is the zeroed default. -/
theorem all_percentages_in_range_witness :
    pctRange ((generateAnalysisResults (fun _ => 0) "audio" "a.mp3" none false (Except.error ()) "t").baseMetrics.authenticity) ∧
    specificInRange ((generateAnalysisResults (fun _ => 0) "audio" "a.mp3" none false (Except.error ()) "t").specificMetrics) := by
  have hml : mlInRange (resolveML "audio" none false (Except.error ())) := by
    have e : resolveML "audio" none false (Except.error ()) = mlDefault := rfl
    rw [e]
    norm_num [mlInRange, mlFeaturesInRange, pctRange, mlDefault]
  have h := all_percentages_in_range (fun _ => 0) "audio" "a.mp3" none false
    (Except.error ()) "t" (fun x => by norm_num) hml
  exact ⟨h.1, h.2.2.2⟩
